import Mathlib

/-!
Verification of the client-side session model and provider facade of the
DSA Master AI front end.  The definitions below are shallow embeddings of
`src/src/App.tsx` and `src/src/geminiService.ts`.  The record types for
questions and sessions live in `types.ts`, which is referenced by both
source files but not present in the repository snapshot; those types are
modelled from the specification's data-model section (and from the JSON
response schema in `geminiService.ts`, which lists the same fields).
-/

namespace DSA

/-- Modelled from the spec: `types.ts` (absent from the snapshot) defines
`Language` as the closed enum with exactly the four members java, cpp,
python, javascript; the response schema in `geminiService.ts` lists the
same four starter-code keys. -/
inductive Language where
  | java
  | cpp
  | python
  | javascript
deriving DecidableEq, Repr

/-- The named views of the App component (`App.tsx` line 53). -/
inductive View where
  | home
  | test
  | importPage
  | settings
  | learning
  | expert
  | results
deriving DecidableEq, Repr

/-- Modelled from the spec: one worked example of a question (input text,
output text, optional explanation), as in the data model and in the
`examples` entry of `questionSchema` in `geminiService.ts`. -/
structure QExample where
  input : String
  output : String
  explanation : Option String
deriving DecidableEq, Repr

/-- Modelled from the spec: free-text complexity pair of an approach. -/
structure Complexity where
  time : String
  space : String
deriving DecidableEq, Repr

/-- Modelled from the spec: one named solution approach. -/
structure Approach where
  name : String
  description : String
  complexity : Complexity
  code : String
deriving DecidableEq, Repr

/-- Modelled from the spec: a solution is an ordered list of approaches. -/
structure Solution where
  approaches : List Approach
deriving DecidableEq, Repr

/-- Modelled from the spec: a question, with the fields listed in the data
model and in `questionSchema` of `geminiService.ts`.  The starter-code
mapping has exactly the four language keys, hence a total function. -/
structure Question where
  id : String
  title : String
  difficulty : String
  topic : String
  description : String
  constraints : List String
  examples : List QExample
  starterCode : Language → String
  solution : Solution
  hints : List String

/-- Modelled from the spec: the `TestSession` type of `types.ts`.
`userCodes` is a JS object keyed by question identifier; each entry is an
object keyed by language.  JS objects may lack keys, hence the nested
`Option`s. -/
@[ext]
structure TestSession where
  id : String
  questions : List Question
  currentQuestionIndex : Nat
  userCodes : String → Option (Language → Option String)
  language : Language

/-- `{ ...q.starterCode }` — the spread copy used to seed a question's code
buffers (`App.tsx` lines 140, 160, 195, 215). -/
def seedBuffers (q : Question) : Language → Option String :=
  fun l => some (q.starterCode l)

/-- Read `uc[qid][l]` from a user-codes object, `none` when a key is
absent. -/
def readBuffer (uc : String → Option (Language → Option String))
    (qid : String) (l : Language) : Option String :=
  match uc qid with
  | some m => m l
  | none => none

/-- Read one code buffer: `session.userCodes[qid][lang]`, `none` when the
key is absent. -/
def bufferOf (s : TestSession) (qid : String) (l : Language) : Option String :=
  readBuffer s.userCodes qid l

/-- A `userCodes` entry that exists and carries all four language buffers. -/
def hasAllBuffers (o : Option (Language → Option String)) : Bool :=
  match o with
  | some m =>
      (m Language.java).isSome && (m Language.cpp).isSome &&
      (m Language.python).isSome && (m Language.javascript).isSome
  | none => false

/-- The session invariant of the spec's data-model section: every question
in `questions` has a `userCodes` entry with all four buffers. -/
def sessionInv (s : TestSession) : Prop :=
  ∀ q ∈ s.questions, hasAllBuffers (s.userCodes q.id) = true

instance (s : TestSession) : Decidable (sessionInv s) := by
  unfold sessionInv
  infer_instance

/-- Session construction from the first fetched question
(`App.tsx` lines 135-143 and 190-198): one question, buffers seeded from
its starter code, index 0, default language java. -/
def createSession (sid : String) (firstQuestion : Question) : TestSession :=
  { id := sid
  , questions := [firstQuestion]
  , currentQuestionIndex := 0
  , userCodes := fun k =>
      if k = firstQuestion.id then some (seedBuffers firstQuestion) else none
  , language := Language.java }

/-- The `setSession(prev => ...)` callback of the background-fill loops
(`App.tsx` lines 153-163 and 208-218): append the question, seed its
buffers; a cleared session (`prev` null) is a silent no-op. -/
def appendQuestion (prev : Option TestSession) (q : Question) : Option TestSession :=
  match prev with
  | none => none
  | some s => some
      { s with
        questions := s.questions ++ [q]
      , userCodes := fun k =>
          if k = q.id then some (seedBuffers q) else s.userCodes k }

/-- `changeLanguage` (`App.tsx` lines 230-237): replaces only the
session-wide language field (`setSession({ ...session, language: lang })`). -/
def changeLanguage (s : TestSession) (lang : Language) : TestSession :=
  { s with language := lang }

/-- The `userCodes` update performed by `updateCode`
(`App.tsx` lines 286-292): re-key `qId` to a copy of its previous entry
with the buffer for the session language replaced.  The spread
`{ ...session.userCodes[qId] }` of an absent entry yields an empty
object, modelled by the all-`none` buffer map. -/
def setBuffer (uc : String → Option (Language → Option String))
    (qid : String) (lang : Language) (code : String) :
    String → Option (Language → Option String) :=
  fun k =>
    if k = qid then
      some (fun l =>
        if l = lang then some code
        else
          (match uc qid with
           | some m => m
           | none => fun _ => none) l)
    else uc k

/-- `updateCode` (`App.tsx` lines 281-294).  `if (!session || !newCode)
return;` makes an absent or empty-string new code a no-op (the empty
string is falsy in JS).  The question looked up is
`questions[currentQuestionIndex]`; an out-of-range index would throw in
JS and is modelled as a no-op (unreachable for valid sessions). -/
def updateCode (s : TestSession) (newCode : Option String) : TestSession :=
  match newCode with
  | none => s
  | some code =>
    if code = "" then s
    else
      match s.questions[s.currentQuestionIndex]? with
      | none => s
      | some q =>
        { s with userCodes := setBuffer s.userCodes q.id s.language code }

/-- `nextQuestion` (`App.tsx` lines 297-302): no-op at (or beyond) the last
index, otherwise advance by one.  The JS guard compares against
`questions.length - 1` over JS numbers, hence the `Int` comparison. -/
def nextQuestion (s : TestSession) : TestSession :=
  if (s.currentQuestionIndex : Int) ≥ (s.questions.length : Int) - 1 then s
  else { s with currentQuestionIndex := s.currentQuestionIndex + 1 }

/-- `prevQuestion` (`App.tsx` lines 304-309): no-op at index 0, otherwise
go back by one. -/
def prevQuestion (s : TestSession) : TestSession :=
  if s.currentQuestionIndex ≤ 0 then s
  else { s with currentQuestionIndex := s.currentQuestionIndex - 1 }

/-! ## Remote Content Provider facade (`geminiService.ts`)

Network calls and JSON parsing are external effects; they are embedded as
explicit oracles.  A request oracle `GenAI → Except String GenResponse`
stands for `ai.models.generateContent(...)` (an error value is a rejected
promise / thrown exception); a parse oracle `String → Except String α`
stands for `JSON.parse` followed by the implicit cast to the result type
(an error value is a `JSON.parse` exception).  `response.text` is an
optional string, `none` when the SDK yields no text. -/

/-- The constructed `GoogleGenAI` client, which exists exactly when a
usable API key was found. -/
structure GenAI where
  apiKey : String
deriving DecidableEq, Repr

/-- A `generateContent` response: its `text` accessor. -/
structure GenResponse where
  text : Option String
deriving DecidableEq, Repr

/-- `getAI` (`geminiService.ts` lines 6-18): reuse a cached client if one
exists; otherwise resolve the key as `localStorage key || env key` (JS
`||`, so an empty string falls through), treating an absent or empty key
or the sentinel placeholder as missing. -/
def getAI (aiInstance : Option GenAI) (customKey envKey : Option String) :
    Except String GenAI :=
  match aiInstance with
  | some ai => Except.ok ai
  | none =>
    let apiKey : Option String :=
      match customKey with
      | some k => if k = "" then envKey else some k
      | none => envKey
    match apiKey with
    | none => Except.error "API_KEY_MISSING"
    | some k =>
      if k = "" ∨ k = "MY_GEMINI_API_KEY" then Except.error "API_KEY_MISSING"
      else Except.ok { apiKey := k }

/-- `generateSingleQuestion` (`geminiService.ts` lines 195-230): any
thrown error (missing key, request failure, JSON parse failure) is logged
and rethrown; an absent or empty `response.text` throws
"Empty response from AI"; otherwise the parsed JSON is returned. -/
def generateSingleQuestion (topic : String) (index total : Nat)
    (aiInstance : Option GenAI) (customKey envKey : Option String)
    (req : GenAI → Except String GenResponse)
    (parseQ : String → Except String Question) : Except String Question :=
  match getAI aiInstance customKey envKey with
  | Except.error e => Except.error e
  | Except.ok ai =>
    match req ai with
    | Except.error e => Except.error e
    | Except.ok response =>
      match response.text with
      | none => Except.error "Empty response from AI"
      | some t => if t = "" then Except.error "Empty response from AI" else parseQ t

/-- `fetchSingleQuestionByTitle` (`geminiService.ts` lines 114-142): the
same error plumbing as `generateSingleQuestion` with a different prompt. -/
def fetchSingleQuestionByTitle (title : String) (index total : Nat)
    (aiInstance : Option GenAI) (customKey envKey : Option String)
    (req : GenAI → Except String GenResponse)
    (parseQ : String → Except String Question) : Except String Question :=
  match getAI aiInstance customKey envKey with
  | Except.error e => Except.error e
  | Except.ok ai =>
    match req ai with
    | Except.error e => Except.error e
    | Except.ok response =>
      match response.text with
      | none => Except.error "Empty response from AI"
      | some t => if t = "" then Except.error "Empty response from AI" else parseQ t

/-- One per-example entry of a run-code response (`geminiService.ts`
lines 168-177).  The response schema lists these properties but marks
none of them required, hence every field is optional. -/
structure ExampleRunResult where
  exampleIndex : Option Nat
  passed : Option Bool
  actualOutput : Option String
  expectedOutput : Option String
  consoleLog : Option String
deriving DecidableEq, Repr

/-- The parsed run-code response (`geminiService.ts` lines 162-180): a
`status` string and a `results` array, both optional in the schema. -/
structure RunResult where
  status : Option String
  results : Option (List ExampleRunResult)
deriving DecidableEq, Repr

/-- `runCodeMock` (`geminiService.ts` lines 144-193): same error plumbing
as the question fetchers; the parsed JSON is returned without any
validation of its `status` or `results` fields. -/
def runCodeMock (code : String) (language : Language) (question : Question)
    (aiInstance : Option GenAI) (customKey envKey : Option String)
    (req : GenAI → Except String GenResponse)
    (parseRun : String → Except String RunResult) : Except String RunResult :=
  match getAI aiInstance customKey envKey with
  | Except.error e => Except.error e
  | Except.ok ai =>
    match req ai with
    | Except.error e => Except.error e
    | Except.ok response =>
      match response.text with
      | none => Except.error "Empty response from AI"
      | some t => if t = "" then Except.error "Empty response from AI" else parseRun t

/-- `translateSolution` (`geminiService.ts` lines 232-252): the whole
body, `getAI()` included, sits inside a try whose catch returns the plain
string "Failed to translate solution."; an absent or empty `response.text`
yields `"Translation failed."` via `||`.  The promise never rejects, so
every result is `Except.ok`. -/
def translateSolution (question : Question) (targetLanguage : String)
    (aiInstance : Option GenAI) (customKey envKey : Option String)
    (req : GenAI → Except String GenResponse) : Except String String :=
  match getAI aiInstance customKey envKey with
  | Except.error _ => Except.ok "Failed to translate solution."
  | Except.ok ai =>
    match req ai with
    | Except.error _ => Except.ok "Failed to translate solution."
    | Except.ok response =>
      Except.ok
        (match response.text with
         | none => "Translation failed."
         | some t => if t = "" then "Translation failed." else t)

/-- `getLearningContent` (`geminiService.ts` lines 254-285): thrown errors
(missing key, request failure) are rethrown, but an absent or empty
`response.text` becomes the success string "Failed to generate content."
via `||`. -/
def getLearningContent (language topic : String)
    (aiInstance : Option GenAI) (customKey envKey : Option String)
    (req : GenAI → Except String GenResponse) : Except String String :=
  match getAI aiInstance customKey envKey with
  | Except.error e => Except.error e
  | Except.ok ai =>
    match req ai with
    | Except.error e => Except.error e
    | Except.ok response =>
      Except.ok
        (match response.text with
         | none => "Failed to generate content."
         | some t => if t = "" then "Failed to generate content." else t)

/-- `getExpertAdvice` (`geminiService.ts` lines 287-310): thrown errors
are rethrown, but an absent or empty `response.text` becomes the success
string "Expert is currently unavailable." via `||`. -/
def getExpertAdvice (message : String) (context : Option String)
    (aiInstance : Option GenAI) (customKey envKey : Option String)
    (req : GenAI → Except String GenResponse) : Except String String :=
  match getAI aiInstance customKey envKey with
  | Except.error e => Except.error e
  | Except.ok ai =>
    match req ai with
    | Except.error e => Except.error e
    | Except.ok response =>
      Except.ok
        (match response.text with
         | none => "Expert is currently unavailable."
         | some t => if t = "" then "Expert is currently unavailable." else t)

/-! ## Incremental Session Builder (`App.tsx` handlers) -/

/-- The success of a fetch, dropping the error. -/
def successOf {α : Type} (r : Except String α) : Option α :=
  match r with
  | Except.ok a => some a
  | Except.error _ => none

/-- JS `a || b` on strings: the empty string falls through to `b`. -/
def jsOrStr (a b : String) : String :=
  if a = "" then b else a

/-- JS `s.split('\n')` on the character list: split at every newline, so
`""` splits to `[""]` and separators at the edges produce empty pieces,
exactly as in JS. -/
def splitLinesAux : List Char → List Char → List String
  | [], acc => [String.mk acc.reverse]
  | c :: rest, acc =>
      if c = '\n' then String.mk acc.reverse :: splitLinesAux rest []
      else splitLinesAux rest (c :: acc)

/-- JS `importText.split('\n')`. -/
def splitLines (s : String) : List String := splitLinesAux s.data []

/-- JS `t.trim() !== ''`: the line contains a non-whitespace character. -/
def jsTrimmedNonempty (t : String) : Bool :=
  t.data.any (fun c => !c.isWhitespace)

/-- `importText.split('\n').filter(t => t.trim() !== '')`
(`App.tsx` line 180). -/
def parseTitles (importText : String) : List String :=
  (splitLines importText).filter (fun t => jsTrimmedNonempty t)

/-- The pieces of component state a build handler reads and writes:
the active session, the active view and the global error slot. -/
structure AppState where
  session : Option TestSession
  view : View
  error : Option String

/-- The outcome of a build handler, together with the list of request
indices for which a fetch was actually issued (in issue order). -/
structure BuildResult where
  session : Option TestSession
  view : View
  error : Option String
  issued : List Nat

/-- The background-fill loop (`App.tsx` lines 150-167 and 205-222): for
each remaining index a fetch is issued; a success is appended through the
`setSession(prev => ...)` callback, a failure is logged and the loop
continues.  Returns the final session and the indices issued. -/
def fillLoop (fetch : Nat → Except String Question) :
    List Nat → Option TestSession → Option TestSession × List Nat
  | [], sess => (sess, [])
  | i :: rest, sess =>
    match fetch i with
    | Except.ok q =>
      let (s', is) := fillLoop fetch rest (appendQuestion sess q)
      (s', i :: is)
    | Except.error _ =>
      let (s', is) := fillLoop fetch rest sess
      (s', i :: is)

/-- `handleImportQuestions` (`App.tsx` lines 175-228).  With the key
missing the handler only opens the key modal; with no non-blank titles it
returns at once.  Otherwise item 0 is fetched synchronously: on failure
the error message (or its fallback) lands in the error slot and nothing
else changes; on success the session is created, the view switches to the
test screen and the remaining titles are fetched by the background loop.
`fetchT` stands for `fetchSingleQuestionByTitle` applied to
`(titles[i], i, total)`. -/
def handleImportQuestions (fetchT : String → Nat → Nat → Except String Question)
    (sid : String) (apiKeyMissing : Bool) (importText : String)
    (st : AppState) : BuildResult :=
  if apiKeyMissing then
    { session := st.session, view := st.view, error := st.error, issued := [] }
  else
    let titles := parseTitles importText
    if titles.length = 0 then
      { session := st.session, view := st.view, error := st.error, issued := [] }
    else
      let total := titles.length
      match fetchT ((titles[0]?).getD "") 0 total with
      | Except.error e =>
        { session := st.session, view := st.view
        , error := some (jsOrStr e "Failed to import questions. Please try again.")
        , issued := [0] }
      | Except.ok firstQuestion =>
        let newSession := createSession sid firstQuestion
        let (sess, issuedBg) :=
          fillLoop (fun i => fetchT ((titles[i]?).getD "") i total)
            (List.range' 1 (total - 1)) (some newSession)
        { session := sess, view := View.test, error := none
        , issued := 0 :: issuedBg }

/-- `handleStartMockTest` (`App.tsx` lines 123-173): the same incremental
build with a fixed total of 5 work items, `generateSingleQuestion` as the
fetcher and its own error fallback message. -/
def handleStartMockTest (gen : String → Nat → Nat → Except String Question)
    (sid : String) (apiKeyMissing : Bool) (topic : String)
    (st : AppState) : BuildResult :=
  if apiKeyMissing then
    { session := st.session, view := st.view, error := st.error, issued := [] }
  else
    let total := 5
    match gen topic 0 total with
    | Except.error e =>
      { session := st.session, view := st.view
      , error := some (jsOrStr e "Failed to generate test. Please try again.")
      , issued := [0] }
    | Except.ok firstQuestion =>
      let newSession := createSession sid firstQuestion
      let (sess, issuedBg) :=
        fillLoop (fun i => gen topic i total) (List.range' 1 (total - 1))
          (some newSession)
      { session := sess, view := View.test, error := none
      , issued := 0 :: issuedBg }

/-- What `handleRunCode` stores into the execution-result state
(`App.tsx` lines 259-279): the parsed provider response as-is, or the
fixed fallback object `{ status: "Error", message: "Failed to execute
code." }` when `runCodeMock` throws. -/
inductive ExecutionResult where
  | fromProvider (r : RunResult)
  | errorFallback
deriving DecidableEq, Repr

/-- The overall status string the UI reads off an execution result. -/
def ExecutionResult.status : ExecutionResult → Option String
  | ExecutionResult.fromProvider r => r.status
  | ExecutionResult.errorFallback => some "Error"

/-- `handleRunCode` (`App.tsx` lines 259-279): reads the current
question's buffer for the session language, calls `runCodeMock` and
stores the result; an exception is converted to the fallback object.  An
out-of-range question index would throw in JS and is modelled as `none`
(unreachable for valid sessions). -/
def handleRunCode (aiInstance : Option GenAI) (customKey envKey : Option String)
    (req : GenAI → Except String GenResponse)
    (parseRun : String → Except String RunResult)
    (s : TestSession) : Option ExecutionResult :=
  match s.questions[s.currentQuestionIndex]? with
  | none => none
  | some currentQuestion =>
    let code := (bufferOf s currentQuestion.id s.language).getD ""
    some
      (match runCodeMock code s.language currentQuestion aiInstance customKey
          envKey req parseRun with
       | Except.ok result => ExecutionResult.fromProvider result
       | Except.error _ => ExecutionResult.errorFallback)

/-! ## Concrete sample data for witnesses -/

/-- A concrete question used to instantiate the theorems below. -/
def sampleQ : Question :=
  { id := "two-sum"
  , title := "Two Sum"
  , difficulty := "Easy"
  , topic := "Array"
  , description := "Find the indices of two numbers adding to target."
  , constraints := ["2 <= n"]
  , examples := [{ input := "nums = 2 7, target = 9", output := "0 1", explanation := none }]
  , starterCode := fun _ => "starter code"
  , solution := { approaches := [] }
  , hints := ["use a hash map"] }

/-- A second concrete question with a distinct identifier. -/
def sampleQ2 : Question :=
  { sampleQ with id := "reverse-linked-list", title := "Reverse Linked List" }

/-- The one-question session built from `sampleQ`. -/
def sampleSession : TestSession := createSession "sess-1" sampleQ

/-- A question whose starter code is empty in every language. -/
def emptyStarterQ : Question := { sampleQ with starterCode := fun _ => "" }

/-- A session whose only buffers hold the empty string. -/
def emptyStarterSession : TestSession := createSession "sess-2" emptyStarterQ

/-! ## Helper lemmas -/

theorem setBuffer_idem (uc : String → Option (Language → Option String))
    (qid : String) (lang : Language) (code : String) :
    setBuffer (setBuffer uc qid lang code) qid lang code =
      setBuffer uc qid lang code := by
  funext k
  unfold setBuffer
  by_cases hk : k = qid
  · simp only [hk, eq_self_iff_true, if_true]
    congr 1
    funext l
    by_cases hl : l = lang
    · simp [hl]
    · simp [hl]
  · simp [hk]

theorem readBuffer_setBuffer (uc : String → Option (Language → Option String))
    (qid : String) (lang : Language) (code : String) (k : String) (l : Language) :
    readBuffer (setBuffer uc qid lang code) k l =
      if k = qid then
        (if l = lang then some code else readBuffer uc qid l)
      else readBuffer uc k l := by
  unfold readBuffer setBuffer
  by_cases hk : k = qid
  · simp only [hk, eq_self_iff_true, if_true]
    by_cases hl : l = lang
    · simp [hl]
    · rcases huc : uc qid with _ | m
      · simp [huc, hl]
      · simp [huc, hl]
  · simp [hk]

theorem hasAllBuffers_seed (q : Question) :
    hasAllBuffers (some (seedBuffers q)) = true := by
  simp [hasAllBuffers, seedBuffers]

theorem hasAllBuffers_intro (m : Language → Option String)
    (h : ∀ l, (m l).isSome = true) : hasAllBuffers (some m) = true := by
  simp [hasAllBuffers, h]

theorem hasAllBuffers_elim {o : Option (Language → Option String)}
    (h : hasAllBuffers o = true) :
    ∃ m, o = some m ∧ ∀ l, (m l).isSome = true := by
  cases o with
  | none => simp [hasAllBuffers] at h
  | some m =>
    refine ⟨m, rfl, ?_⟩
    intro l
    simp only [hasAllBuffers, Bool.and_eq_true] at h
    cases l <;> tauto

theorem fillLoop_spec (fetch : Nat → Except String Question) (idxs : List Nat) :
    ∀ s : TestSession, ∃ s2,
      fillLoop fetch idxs (some s) = (some s2, idxs) ∧
      s2.questions = s.questions ++ idxs.filterMap (fun i => successOf (fetch i)) := by
  induction idxs with
  | nil => exact fun s => ⟨s, rfl, by simp⟩
  | cons i rest ih =>
    intro s
    cases hf : fetch i with
    | ok q =>
      obtain ⟨s2, h1, h2⟩ := ih
        { s with
          questions := s.questions ++ [q]
        , userCodes := fun k =>
            if k = q.id then some (seedBuffers q) else s.userCodes k }
      refine ⟨s2, ?_, ?_⟩
      · simp only [fillLoop, hf, appendQuestion, h1]
      · rw [h2]
        simp [successOf, hf, List.filterMap_cons]
    | error e =>
      obtain ⟨s2, h1, h2⟩ := ih s
      refine ⟨s2, ?_, ?_⟩
      · simp only [fillLoop, hf, h1]
      · rw [h2]
        simp [successOf, hf, List.filterMap_cons]

theorem range_eq_cons (n : Nat) (hn : n ≠ 0) :
    List.range n = 0 :: List.range' 1 (n - 1) := by
  obtain ⟨k, rfl⟩ := Nat.exists_eq_succ_of_ne_zero hn
  rw [List.range_eq_range']
  simp [List.range'_succ]

/-! ## Claim theorems -/

/-- C8: switching the session-wide language (`changeLanguage`) updates
only the `language` field; the questions list, the current index, the
session id and every `userCodes` buffer of every question are unchanged. -/
theorem changeLanguage_only_language (s : TestSession) (lang : Language) :
    (changeLanguage s lang).language = lang ∧
    (changeLanguage s lang).userCodes = s.userCodes ∧
    (changeLanguage s lang).questions = s.questions ∧
    (changeLanguage s lang).currentQuestionIndex = s.currentQuestionIndex ∧
    (changeLanguage s lang).id = s.id :=
  ⟨rfl, rfl, rfl, rfl, rfl⟩

/-- C9: `updateCode` is idempotent — applying it twice with the same new
code (hence the same current question and language) yields the session
obtained by applying it once. -/
theorem updateCode_idempotent (s : TestSession) (newCode : Option String) :
    updateCode (updateCode s newCode) newCode = updateCode s newCode := by
  cases newCode with
  | none => rfl
  | some code =>
    by_cases hc : code = ""
    · simp [updateCode, hc]
    · cases hq : s.questions[s.currentQuestionIndex]? with
      | none => simp [updateCode, hc, hq]
      | some q =>
        simp [updateCode, hc, hq, setBuffer_idem]

/-- C7: advancing past the last index (`nextQuestion`) and before index 0
(`prevQuestion`) are no-ops, and both operations keep the index a valid
index of the questions list. -/
theorem advance_clamps_at_boundaries (s1 s2 s3 : TestSession)
    (h1 : s1.currentQuestionIndex = s1.questions.length - 1)
    (h2 : s2.currentQuestionIndex = 0)
    (h3 : s3.currentQuestionIndex < s3.questions.length) :
    nextQuestion s1 = s1 ∧ prevQuestion s2 = s2 ∧
    (nextQuestion s3).currentQuestionIndex < s3.questions.length ∧
    (prevQuestion s3).currentQuestionIndex < s3.questions.length := by
  refine ⟨?_, ?_, ?_, ?_⟩
  · unfold nextQuestion
    rw [if_pos (by omega)]
  · unfold prevQuestion
    rw [if_pos (by omega)]
  · unfold nextQuestion
    split
    · exact h3
    · rename_i hlt
      show s3.currentQuestionIndex + 1 < s3.questions.length
      omega
  · unfold prevQuestion
    split
    · exact h3
    · show s3.currentQuestionIndex - 1 < s3.questions.length
      omega

/-- Witness for C7 at the one-question session: both boundaries coincide
at index 0 and the clamping facts hold there. -/
theorem advance_clamps_at_boundaries_witness :
    sampleSession.currentQuestionIndex = sampleSession.questions.length - 1 ∧
    sampleSession.currentQuestionIndex = 0 ∧
    sampleSession.currentQuestionIndex < sampleSession.questions.length ∧
    (nextQuestion sampleSession = sampleSession ∧
     prevQuestion sampleSession = sampleSession ∧
     (nextQuestion sampleSession).currentQuestionIndex < sampleSession.questions.length ∧
     (prevQuestion sampleSession).currentQuestionIndex < sampleSession.questions.length) :=
  ⟨rfl, rfl, by decide,
   advance_clamps_at_boundaries sampleSession sampleSession sampleSession rfl rfl (by decide)⟩

/-- C10: `updateCode` with an absent or empty-string new code is a silent
no-op, and consequently no buffer ever reads back as the empty string
after an `updateCode` unless it already was the empty string before. -/
theorem updateCode_empty_noop (s : TestSession) (c : Option String)
    (qid : String) (l : Language)
    (h : bufferOf (updateCode s c) qid l = some "") :
    updateCode s none = s ∧ updateCode s (some "") = s ∧
    bufferOf s qid l = some "" := by
  refine ⟨rfl, by simp [updateCode], ?_⟩
  cases c with
  | none => exact h
  | some code =>
    by_cases hc : code = ""
    · simpa [updateCode, hc] using h
    · cases hq : s.questions[s.currentQuestionIndex]? with
      | none => simpa [updateCode, hc, hq] using h
      | some q =>
        simp only [updateCode, hc, hq, ite_false, if_neg] at h
        unfold bufferOf at h ⊢
        rw [show ({ s with userCodes := setBuffer s.userCodes q.id s.language code } :
              TestSession).userCodes = setBuffer s.userCodes q.id s.language code
            from rfl] at h
        rw [readBuffer_setBuffer] at h
        by_cases hk : qid = q.id
        · rw [if_pos hk] at h
          by_cases hl : l = s.language
          · rw [if_pos hl] at h
            exact absurd (Option.some.inj h) hc
          · rw [if_neg hl] at h
            rw [hk]
            exact h
        · rw [if_neg hk] at h
          exact h

/-- C5: every Session Store operation preserves the buffers invariant —
each question in `questions` keeps a `userCodes` entry with all four
language buffers — and at the moment of insertion (`createSession` and
`appendQuestion`) each buffer reads back exactly the question's starter
code for that language. -/
theorem session_buffers_invariant (sid : String) (q q2 : Question)
    (s s2 : TestSession) (lang : Language) (nc : Option String) (l : Language)
    (hinv : sessionInv s)
    (happ : appendQuestion (some s) q2 = some s2) :
    sessionInv (createSession sid q) ∧
    bufferOf (createSession sid q) q.id l = some (q.starterCode l) ∧
    sessionInv s2 ∧
    bufferOf s2 q2.id l = some (q2.starterCode l) ∧
    sessionInv (changeLanguage s lang) ∧
    sessionInv (updateCode s nc) ∧
    sessionInv (nextQuestion s) ∧
    sessionInv (prevQuestion s) := by
  simp only [appendQuestion, Option.some.injEq] at happ
  subst happ
  refine ⟨?_, ?_, ?_, ?_, ?_, ?_, ?_, ?_⟩
  · intro p hp
    simp only [createSession, List.mem_singleton] at hp
    subst hp
    show hasAllBuffers (if p.id = p.id then some (seedBuffers p) else none) = true
    rw [if_pos rfl]
    exact hasAllBuffers_seed p
  · show readBuffer (fun k => if k = q.id then some (seedBuffers q) else none)
      q.id l = some (q.starterCode l)
    simp [readBuffer, seedBuffers]
  · intro p hp
    simp only [List.mem_append, List.mem_singleton] at hp
    show hasAllBuffers
      (if p.id = q2.id then some (seedBuffers q2) else s.userCodes p.id) = true
    by_cases hpk : p.id = q2.id
    · rw [if_pos hpk]
      exact hasAllBuffers_seed q2
    · rw [if_neg hpk]
      rcases hp with hp | hp
      · exact hinv p hp
      · exact absurd (hp ▸ rfl) hpk
  · show readBuffer
      (fun k => if k = q2.id then some (seedBuffers q2) else s.userCodes k)
      q2.id l = some (q2.starterCode l)
    simp [readBuffer, seedBuffers]
  · exact hinv
  · cases nc with
    | none => exact hinv
    | some code =>
      by_cases hc : code = ""
      · simp only [updateCode, hc, if_pos]
        exact hinv
      · cases hq : s.questions[s.currentQuestionIndex]? with
        | none =>
          simp only [updateCode, hc, ite_false, if_neg, hq]
          exact hinv
        | some q0 =>
          simp only [updateCode, hc, ite_false, if_neg, hq]
          intro p hp
          have hq0mem : q0 ∈ s.questions := List.getElem?_mem hq
          obtain ⟨m, hm, hall⟩ := hasAllBuffers_elim (hinv q0 hq0mem)
          show hasAllBuffers (setBuffer s.userCodes q0.id s.language code p.id) = true
          unfold setBuffer
          by_cases hpk : p.id = q0.id
          · rw [if_pos hpk]
            apply hasAllBuffers_intro
            intro l2
            by_cases hl : l2 = s.language
            · simp [hl]
            · simp only [if_neg hl, hm]
              exact hall l2
          · rw [if_neg hpk]
            exact hinv p hp
  · unfold nextQuestion
    split
    · exact hinv
    · exact hinv
  · unfold prevQuestion
    split
    · exact hinv
    · exact hinv

/-- The session obtained by appending `sampleQ2` to the sample session. -/
def sampleAppended : TestSession :=
  { sampleSession with
    questions := sampleSession.questions ++ [sampleQ2]
  , userCodes := fun k =>
      if k = sampleQ2.id then some (seedBuffers sampleQ2)
      else sampleSession.userCodes k }

/-- Witness for C5 at the sample session and the two sample questions. -/
theorem session_buffers_invariant_witness :
    sessionInv sampleSession ∧
    appendQuestion (some sampleSession) sampleQ2 = some sampleAppended ∧
    (sessionInv (createSession "sess-1" sampleQ) ∧
     bufferOf (createSession "sess-1" sampleQ) sampleQ.id Language.python =
       some (sampleQ.starterCode Language.python) ∧
     sessionInv sampleAppended ∧
     bufferOf sampleAppended sampleQ2.id Language.python =
       some (sampleQ2.starterCode Language.python) ∧
     sessionInv (changeLanguage sampleSession Language.python) ∧
     sessionInv (updateCode sampleSession (some "new code")) ∧
     sessionInv (nextQuestion sampleSession) ∧
     sessionInv (prevQuestion sampleSession)) :=
  ⟨by decide, rfl,
   session_buffers_invariant "sess-1" sampleQ sampleQ2 sampleSession sampleAppended
     Language.python (some "new code") Language.python (by decide) rfl⟩

/-- C1: in an incremental build whose item-0 fetch succeeds, the
resulting session's questions are exactly the successfully fetched items,
one per success, in strictly increasing request-index order; a failed
background fetch is skipped and the build continues.  Holds for both
the importing builder and the mock-test builder. -/
theorem incremental_build_collects_successes
    (fetchT gen : String → Nat → Nat → Except String Question)
    (sid importText topic : String) (st : AppState) (q0 g0 : Question)
    (hne : parseTitles importText ≠ [])
    (h0 : fetchT (((parseTitles importText)[0]?).getD "") 0
            (parseTitles importText).length = Except.ok q0)
    (hg : gen topic 0 5 = Except.ok g0) :
    ((handleImportQuestions fetchT sid false importText st).session).map
        TestSession.questions =
      some ((List.range (parseTitles importText).length).filterMap
        (fun i => successOf (fetchT (((parseTitles importText)[i]?).getD "") i
          (parseTitles importText).length))) ∧
    ((handleStartMockTest gen sid false topic st).session).map
        TestSession.questions =
      some ((List.range 5).filterMap (fun i => successOf (gen topic i 5))) := by
  have hlen : (parseTitles importText).length ≠ 0 := by
    simpa [List.length_eq_zero] using hne
  constructor
  · obtain ⟨s2, hfl, hqs⟩ := fillLoop_spec
      (fun i => fetchT (((parseTitles importText)[i]?).getD "") i
        (parseTitles importText).length)
      (List.range' 1 ((parseTitles importText).length - 1))
      (createSession sid q0)
    have hq2 : s2.questions =
        q0 :: (List.range' 1 ((parseTitles importText).length - 1)).filterMap
          (fun i => successOf (fetchT (((parseTitles importText)[i]?).getD "") i
            (parseTitles importText).length)) := by
      rw [hqs]
      simp [createSession]
    have hrange : (List.range (parseTitles importText).length).filterMap
        (fun i => successOf (fetchT (((parseTitles importText)[i]?).getD "") i
          (parseTitles importText).length)) =
        q0 :: (List.range' 1 ((parseTitles importText).length - 1)).filterMap
          (fun i => successOf (fetchT (((parseTitles importText)[i]?).getD "") i
            (parseTitles importText).length)) := by
      rw [range_eq_cons _ hlen, List.filterMap_cons]
      simp [successOf, h0]
    unfold handleImportQuestions
    simp only [Bool.false_eq_true, if_false, hlen, ite_false, if_neg, h0, hfl]
    rw [hrange]
    simp only [Option.map_some']
    rw [hq2]
  · obtain ⟨s2, hfl, hqs⟩ := fillLoop_spec (fun i => gen topic i 5)
      (List.range' 1 (5 - 1)) (createSession sid g0)
    have hq2 : s2.questions =
        g0 :: (List.range' 1 (5 - 1)).filterMap
          (fun i => successOf (gen topic i 5)) := by
      rw [hqs]
      simp [createSession]
    have hrange : (List.range 5).filterMap (fun i => successOf (gen topic i 5)) =
        g0 :: (List.range' 1 (5 - 1)).filterMap
          (fun i => successOf (gen topic i 5)) := by
      rw [range_eq_cons 5 (by decide), List.filterMap_cons]
      simp [successOf, hg]
    unfold handleStartMockTest
    simp only [Bool.false_eq_true, if_false, hg, hfl]
    rw [hrange]
    simp only [Option.map_some']
    rw [hq2]

/-- The scenario import text of the spec: three titles, the middle one
engineered to fail. -/
def scenarioText : String :=
  "Two Sum\nBAD_TITLE_CAUSES_FAILURE\nReverse Linked List"

/-- A question derived from a title. -/
def scenarioQuestion (t : String) : Question :=
  { sampleQ with id := t, title := t }

/-- The scenario fetch oracle: the bad title fails, every other succeeds. -/
def scenarioFetch : String → Nat → Nat → Except String Question :=
  fun title _ _ =>
    if title = "BAD_TITLE_CAUSES_FAILURE" then
      Except.error "Failed to fetch question"
    else Except.ok (scenarioQuestion title)

/-- A generator oracle that always succeeds. -/
def constGen : String → Nat → Nat → Except String Question :=
  fun topic _ _ => Except.ok (scenarioQuestion topic)

/-- A fetch oracle that always fails. -/
def failFetch : String → Nat → Nat → Except String Question :=
  fun _ _ _ => Except.error "network down"

/-- The app state before any build: no session, home view, no error. -/
def initialState : AppState :=
  { session := none, view := View.home, error := none }

/-- Witness for C1 at the spec's three-title scenario (fetches 0 and 2
succeed, fetch 1 fails) and at an all-success mock-test build. -/
theorem incremental_build_collects_successes_witness :
    parseTitles scenarioText ≠ [] ∧
    scenarioFetch (((parseTitles scenarioText)[0]?).getD "") 0
        (parseTitles scenarioText).length =
      Except.ok (scenarioQuestion "Two Sum") ∧
    constGen "Array" 0 5 = Except.ok (scenarioQuestion "Array") ∧
    (((handleImportQuestions scenarioFetch "sess-1" false scenarioText
          initialState).session).map TestSession.questions =
        some ((List.range (parseTitles scenarioText).length).filterMap
          (fun i => successOf (scenarioFetch (((parseTitles scenarioText)[i]?).getD "") i
            (parseTitles scenarioText).length))) ∧
     ((handleStartMockTest constGen "sess-1" false "Array"
          initialState).session).map TestSession.questions =
        some ((List.range 5).filterMap (fun i => successOf (constGen "Array" i 5)))) :=
  ⟨by decide, rfl, rfl,
   incremental_build_collects_successes scenarioFetch constGen "sess-1" scenarioText
     "Array" initialState (scenarioQuestion "Two Sum") (scenarioQuestion "Array")
     (by decide) rfl rfl⟩

/-- C4: when the synchronous fetch of item 0 fails, the build aborts
atomically: the error is surfaced in the error slot, the session and the
view are untouched, and no background fetch is issued.  Holds for both
the import builder and the mock-test builder. -/
theorem first_fetch_failure_aborts_build
    (fetchT gen : String → Nat → Nat → Except String Question)
    (sid importText topic e eg : String) (st : AppState)
    (hne : parseTitles importText ≠ [])
    (h0 : fetchT (((parseTitles importText)[0]?).getD "") 0
            (parseTitles importText).length = Except.error e)
    (hg : gen topic 0 5 = Except.error eg) :
    (handleImportQuestions fetchT sid false importText st).session = st.session ∧
    (handleImportQuestions fetchT sid false importText st).view = st.view ∧
    (handleImportQuestions fetchT sid false importText st).error =
      some (jsOrStr e "Failed to import questions. Please try again.") ∧
    (handleImportQuestions fetchT sid false importText st).issued = [0] ∧
    (handleStartMockTest gen sid false topic st).session = st.session ∧
    (handleStartMockTest gen sid false topic st).view = st.view ∧
    (handleStartMockTest gen sid false topic st).error =
      some (jsOrStr eg "Failed to generate test. Please try again.") ∧
    (handleStartMockTest gen sid false topic st).issued = [0] := by
  have hlen : (parseTitles importText).length ≠ 0 := by
    simpa [List.length_eq_zero] using hne
  unfold handleImportQuestions handleStartMockTest
  simp [hlen, h0, hg]

/-- Witness for C4 with an always-failing fetcher over the scenario
titles and over a mock-test topic. -/
theorem first_fetch_failure_aborts_build_witness :
    parseTitles scenarioText ≠ [] ∧
    failFetch (((parseTitles scenarioText)[0]?).getD "") 0
        (parseTitles scenarioText).length = Except.error "network down" ∧
    failFetch "Array" 0 5 = Except.error "network down" ∧
    ((handleImportQuestions failFetch "sess-1" false scenarioText initialState).session =
        initialState.session ∧
     (handleImportQuestions failFetch "sess-1" false scenarioText initialState).view =
        initialState.view ∧
     (handleImportQuestions failFetch "sess-1" false scenarioText initialState).error =
        some (jsOrStr "network down" "Failed to import questions. Please try again.") ∧
     (handleImportQuestions failFetch "sess-1" false scenarioText initialState).issued = [0] ∧
     (handleStartMockTest failFetch "sess-1" false "Array" initialState).session =
        initialState.session ∧
     (handleStartMockTest failFetch "sess-1" false "Array" initialState).view =
        initialState.view ∧
     (handleStartMockTest failFetch "sess-1" false "Array" initialState).error =
        some (jsOrStr "network down" "Failed to generate test. Please try again.") ∧
     (handleStartMockTest failFetch "sess-1" false "Array" initialState).issued = [0]) :=
  ⟨by decide, rfl, rfl,
   first_fetch_failure_aborts_build failFetch failFetch "sess-1" scenarioText "Array"
     "network down" "network down" initialState (by decide) rfl rfl⟩

/-- Witness for C10 at a session whose buffers are already empty. -/
theorem updateCode_empty_noop_witness :
    bufferOf (updateCode emptyStarterSession none) "two-sum" Language.java = some "" ∧
    (updateCode emptyStarterSession none = emptyStarterSession ∧
     updateCode emptyStarterSession (some "") = emptyStarterSession ∧
     bufferOf emptyStarterSession "two-sum" Language.java = some "") :=
  ⟨rfl, updateCode_empty_noop emptyStarterSession none "two-sum" Language.java rfl⟩

/-- C3 counterexample: with no credential present at all,
`translateSolution` does not fail with error "API_KEY_MISSING" — its
catch swallows the internal throw and the caller receives the plain
fallback string as a successful result, refuting the claim's universal
quantification over provider-backed operations. -/
theorem missing_key_translate_counterexample :
    translateSolution sampleQ "python" none none none
        (fun _ => Except.ok { text := some "translated text" }) =
      Except.ok "Failed to translate solution." ∧
    (Except.ok "Failed to translate solution." : Except String String) ≠
      Except.error "API_KEY_MISSING" :=
  ⟨rfl, by simp⟩

/-- C3 amended: with no credential present (no local key, and the env key
absent or equal to the sentinel "MY_GEMINI_API_KEY", which is treated as
absent), every facade operation issues no request — the result is the
same for every request oracle; generate, fetch-by-title, run-code,
learning-content and expert-advice fail fast with error
"API_KEY_MISSING", while `translateSolution` hits the same condition but
catches it and returns the fallback success string. -/
theorem missing_key_failfast_amended
    (req : GenAI → Except String GenResponse)
    (parseQ : String → Except String Question)
    (parseRun : String → Except String RunResult)
    (topic title code lng tpc msg tl : String) (language : Language)
    (q : Question) (i n : Nat) (ctx : Option String) :
    getAI none none none = Except.error "API_KEY_MISSING" ∧
    getAI none none (some "MY_GEMINI_API_KEY") = Except.error "API_KEY_MISSING" ∧
    generateSingleQuestion topic i n none none none req parseQ =
      Except.error "API_KEY_MISSING" ∧
    generateSingleQuestion topic i n none none (some "MY_GEMINI_API_KEY") req parseQ =
      Except.error "API_KEY_MISSING" ∧
    fetchSingleQuestionByTitle title i n none none none req parseQ =
      Except.error "API_KEY_MISSING" ∧
    fetchSingleQuestionByTitle title i n none none (some "MY_GEMINI_API_KEY") req parseQ =
      Except.error "API_KEY_MISSING" ∧
    runCodeMock code language q none none none req parseRun =
      Except.error "API_KEY_MISSING" ∧
    runCodeMock code language q none none (some "MY_GEMINI_API_KEY") req parseRun =
      Except.error "API_KEY_MISSING" ∧
    getLearningContent lng tpc none none none req =
      Except.error "API_KEY_MISSING" ∧
    getLearningContent lng tpc none none (some "MY_GEMINI_API_KEY") req =
      Except.error "API_KEY_MISSING" ∧
    getExpertAdvice msg ctx none none none req =
      Except.error "API_KEY_MISSING" ∧
    getExpertAdvice msg ctx none none (some "MY_GEMINI_API_KEY") req =
      Except.error "API_KEY_MISSING" ∧
    translateSolution q tl none none none req =
      Except.ok "Failed to translate solution." ∧
    translateSolution q tl none none (some "MY_GEMINI_API_KEY") req =
      Except.ok "Failed to translate solution." :=
  ⟨rfl, rfl, rfl, rfl, rfl, rfl, rfl, rfl, rfl, rfl, rfl, rfl, rfl, rfl⟩

/-- C2 counterexample: a failing provider call inside `translateSolution`
is not surfaced as a typed failure — the caller receives the plain
fallback string as a successful result. -/
theorem provider_failure_fallback_counterexample :
    translateSolution sampleQ "python" (some { apiKey := "key" }) none none
        (fun _ => Except.error "network failure") =
      Except.ok "Failed to translate solution." ∧
    (Except.ok "Failed to translate solution." : Except String String) ≠
      Except.error "network failure" :=
  ⟨rfl, by simp⟩

/-- C2 amended: the structured operations (generate question, fetch by
title, run code) propagate request failures and JSON-parse failures and
reject an absent or empty payload with error "Empty response from AI";
learning-content and expert-advice propagate thrown failures but convert
an absent or empty payload into a fallback success string; and
`translateSolution` never surfaces a failure at all — every error becomes
the success string "Failed to translate solution." and an empty payload
becomes "Translation failed.". -/
theorem provider_failure_surfacing_amended
    (ai : GenAI) (e : String)
    (parseQ : String → Except String Question)
    (parseRun : String → Except String RunResult)
    (topic title code lng tpc msg tl : String) (language : Language)
    (q : Question) (i n : Nat) (ctx : Option String) :
    generateSingleQuestion topic i n (some ai) none none
        (fun _ => Except.error e) parseQ = Except.error e ∧
    generateSingleQuestion topic i n (some ai) none none
        (fun _ => Except.ok { text := none }) parseQ =
      Except.error "Empty response from AI" ∧
    generateSingleQuestion topic i n (some ai) none none
        (fun _ => Except.ok { text := some "" }) parseQ =
      Except.error "Empty response from AI" ∧
    generateSingleQuestion topic i n (some ai) none none
        (fun _ => Except.ok { text := some "payload" }) parseQ = parseQ "payload" ∧
    fetchSingleQuestionByTitle title i n (some ai) none none
        (fun _ => Except.error e) parseQ = Except.error e ∧
    fetchSingleQuestionByTitle title i n (some ai) none none
        (fun _ => Except.ok { text := none }) parseQ =
      Except.error "Empty response from AI" ∧
    fetchSingleQuestionByTitle title i n (some ai) none none
        (fun _ => Except.ok { text := some "" }) parseQ =
      Except.error "Empty response from AI" ∧
    fetchSingleQuestionByTitle title i n (some ai) none none
        (fun _ => Except.ok { text := some "payload" }) parseQ = parseQ "payload" ∧
    runCodeMock code language q (some ai) none none
        (fun _ => Except.error e) parseRun = Except.error e ∧
    runCodeMock code language q (some ai) none none
        (fun _ => Except.ok { text := none }) parseRun =
      Except.error "Empty response from AI" ∧
    runCodeMock code language q (some ai) none none
        (fun _ => Except.ok { text := some "" }) parseRun =
      Except.error "Empty response from AI" ∧
    runCodeMock code language q (some ai) none none
        (fun _ => Except.ok { text := some "payload" }) parseRun = parseRun "payload" ∧
    getLearningContent lng tpc (some ai) none none
        (fun _ => Except.error e) = Except.error e ∧
    getLearningContent lng tpc (some ai) none none
        (fun _ => Except.ok { text := none }) =
      Except.ok "Failed to generate content." ∧
    getLearningContent lng tpc (some ai) none none
        (fun _ => Except.ok { text := some "" }) =
      Except.ok "Failed to generate content." ∧
    getLearningContent lng tpc (some ai) none none
        (fun _ => Except.ok { text := some "payload" }) = Except.ok "payload" ∧
    getExpertAdvice msg ctx (some ai) none none
        (fun _ => Except.error e) = Except.error e ∧
    getExpertAdvice msg ctx (some ai) none none
        (fun _ => Except.ok { text := none }) =
      Except.ok "Expert is currently unavailable." ∧
    getExpertAdvice msg ctx (some ai) none none
        (fun _ => Except.ok { text := some "" }) =
      Except.ok "Expert is currently unavailable." ∧
    getExpertAdvice msg ctx (some ai) none none
        (fun _ => Except.ok { text := some "payload" }) = Except.ok "payload" ∧
    translateSolution q tl (some ai) none none
        (fun _ => Except.error e) = Except.ok "Failed to translate solution." ∧
    translateSolution q tl (some ai) none none
        (fun _ => Except.ok { text := none }) = Except.ok "Translation failed." ∧
    translateSolution q tl (some ai) none none
        (fun _ => Except.ok { text := some "" }) = Except.ok "Translation failed." ∧
    translateSolution q tl (some ai) none none
        (fun _ => Except.ok { text := some "payload" }) = Except.ok "payload" :=
  ⟨rfl, rfl, rfl, rfl, rfl, rfl, rfl, rfl, rfl, rfl, rfl, rfl,
   rfl, rfl, rfl, rfl, rfl, rfl, rfl, rfl, rfl, rfl, rfl, rfl⟩

/-- A parsed run-code response whose status is none of the four claimed
values. -/
def bananaRun : RunResult := { status := some "Banana", results := some [] }

/-- A parsed run-code response with a compliant status. -/
def okRun : RunResult := { status := some "Accepted", results := some [] }

/-- C6 counterexample: the parsed run-code response is delivered to the
UI without validation — a provider status outside the four claimed values
reaches the execution-result state verbatim. -/
theorem run_status_unvalidated_counterexample :
    handleRunCode (some { apiKey := "key" }) none none
        (fun _ => Except.ok { text := some "payload" })
        (fun _ => Except.ok bananaRun) sampleSession =
      some (ExecutionResult.fromProvider bananaRun) ∧
    ExecutionResult.status (ExecutionResult.fromProvider bananaRun) = some "Banana" ∧
    "Banana" ∉ (["Accepted", "Wrong Answer", "Runtime Error", "Error"] : List String) :=
  ⟨rfl, rfl, by decide⟩

/-- C6 amended: a successful run delivers the provider's parsed response
object unchanged (so its status lies in the four claimed values exactly
when the provider complied with the prompt), and any failure delivers the
fixed fallback whose status is "Error"; no further normalization or
validation is performed. -/
theorem run_result_delivery_amended (aiInstance : Option GenAI)
    (ck ek : Option String)
    (req1 req2 : GenAI → Except String GenResponse)
    (parse1 parse2 : String → Except String RunResult)
    (s : TestSession) (q : Question) (r : RunResult) (e v : String)
    (hq : s.questions[s.currentQuestionIndex]? = some q)
    (h1 : runCodeMock ((bufferOf s q.id s.language).getD "") s.language q
            aiInstance ck ek req1 parse1 = Except.ok r)
    (h2 : runCodeMock ((bufferOf s q.id s.language).getD "") s.language q
            aiInstance ck ek req2 parse2 = Except.error e)
    (hst : r.status = some "Accepted" ∨ r.status = some "Wrong Answer" ∨
           r.status = some "Runtime Error")
    (hv : ExecutionResult.status (ExecutionResult.fromProvider r) = some v) :
    handleRunCode aiInstance ck ek req1 parse1 s =
      some (ExecutionResult.fromProvider r) ∧
    handleRunCode aiInstance ck ek req2 parse2 s =
      some ExecutionResult.errorFallback ∧
    ExecutionResult.status ExecutionResult.errorFallback = some "Error" ∧
    v ∈ (["Accepted", "Wrong Answer", "Runtime Error", "Error"] : List String) := by
  refine ⟨?_, ?_, rfl, ?_⟩
  · simp only [handleRunCode, hq, h1]
  · simp only [handleRunCode, hq, h2]
  · have hv2 : r.status = some v := hv
    rcases hst with h | h | h <;> rw [h] at hv2 <;>
      obtain rfl := Option.some.inj hv2 <;> decide

/-- Witness for C6's amended theorem at the sample session with a
compliant success and a failing request. -/
theorem run_result_delivery_amended_witness :
    sampleSession.questions[sampleSession.currentQuestionIndex]? = some sampleQ ∧
    runCodeMock ((bufferOf sampleSession sampleQ.id sampleSession.language).getD "")
        sampleSession.language sampleQ (some { apiKey := "key" }) none none
        (fun _ => Except.ok { text := some "payload" }) (fun _ => Except.ok okRun) =
      Except.ok okRun ∧
    runCodeMock ((bufferOf sampleSession sampleQ.id sampleSession.language).getD "")
        sampleSession.language sampleQ (some { apiKey := "key" }) none none
        (fun _ => Except.error "boom") (fun _ => Except.ok okRun) =
      Except.error "boom" ∧
    (okRun.status = some "Accepted" ∨ okRun.status = some "Wrong Answer" ∨
     okRun.status = some "Runtime Error") ∧
    ExecutionResult.status (ExecutionResult.fromProvider okRun) = some "Accepted" ∧
    (handleRunCode (some { apiKey := "key" }) none none
        (fun _ => Except.ok { text := some "payload" }) (fun _ => Except.ok okRun)
        sampleSession = some (ExecutionResult.fromProvider okRun) ∧
     handleRunCode (some { apiKey := "key" }) none none
        (fun _ => Except.error "boom") (fun _ => Except.ok okRun) sampleSession =
       some ExecutionResult.errorFallback ∧
     ExecutionResult.status ExecutionResult.errorFallback = some "Error" ∧
     "Accepted" ∈ (["Accepted", "Wrong Answer", "Runtime Error", "Error"] : List String)) :=
  ⟨rfl, rfl, rfl, Or.inl rfl, rfl,
   run_result_delivery_amended (some { apiKey := "key" }) none none
     (fun _ => Except.ok { text := some "payload" }) (fun _ => Except.error "boom")
     (fun _ => Except.ok okRun) (fun _ => Except.ok okRun)
     sampleSession sampleQ okRun "boom" "Accepted" rfl rfl rfl (Or.inl rfl) rfl⟩

end DSA
